import Mathlib

/-!
Verification development for the APK compiler service (src/server.js).

The service is a single Express HTTP server.  The embedding below translates,
directly from the source:

* the request-body validation of the POST /compile-apk handler;
* the package-name extraction from the manifest text
  (JS: manifest.match of the pattern package="([^"]+)") and the
  dot-to-slash path derivation;
* the workspace materialization performed by createAndroidProject, modelled
  as the exact ordered list of filesystem operations the function performs,
  executed against an oracle that may fail any single operation;
* the outcome resolution of compileAPK (wrapper bootstrap, gradle exit
  code, artifact-existence check);
* the bounded-redirect download loop of createGradleWrapper;
* the handler's response/cleanup glue, recorded as a response value plus an
  ordered event trace;
* the posix path-join/normalization semantics needed to reason about where
  the derived MainActivity.java path lands relative to the workspace root.

External effects (filesystem, network, child process) are represented by
oracles passed as explicit arguments, so every definition is executable.
-/

namespace BkendServe

set_option maxRecDepth 8000

/-- JS falsiness of an optional string field of the request body:
an absent (undefined/null) field and the empty string are falsy. -/
def strFalsy : Option String → Bool
  | none => true
  | some s => s == ""

/-- The fixed 400 error message of the handler. -/
def missingFilesError : String := "Missing required files: manifest, mainActivity, or layout"

/-- The literal prefix of the regex pattern: the characters of package=" . -/
def pkgPrefix : List Char := "package=\"".data

/-- Attempt to match the regex package="([^"]+)" anchored at the start of s,
returning the captured group.  Mirrors the JS regex: the literal prefix, then
one or more non-quote characters (greedy), then a closing quote. -/
def matchPkgAt (s : List Char) : Option (List Char) :=
  if pkgPrefix.isPrefixOf s then
    let rest := s.drop pkgPrefix.length
    let body := rest.takeWhile fun c => !(c == '\"')
    if body = [] then none
    else if (rest.drop body.length).head? = some '\"' then some body
    else none
  else none

/-- Scan of the JS regex engine: try the pattern at each successive start
position, returning the first capture.  Mirrors manifest.match(...)[1]. -/
def findPackageName : List Char → Option (List Char)
  | [] => none
  | c :: cs =>
    match matchPkgAt (c :: cs) with
    | some b => some b
    | none => findPackageName cs

/-- packageName of createAndroidProject: the regex capture, or the fixed
fallback com.apkforge.app when the pattern does not match. -/
def packageName (manifest : String) : String :=
  match findPackageName manifest.data with
  | some b => String.mk b
  | none => "com.apkforge.app"

/-- packagePath of createAndroidProject: packageName.replace of every dot
by a slash. -/
def packagePath (pkg : String) : String :=
  String.mk (pkg.data.map fun c => if c = '.' then '/' else c)

/-- The workspace-relative path at which the main source file is written. -/
def mainActivityRelPath (manifest : String) : String :=
  "app/src/main/java/" ++ packagePath (packageName manifest) ++ "/MainActivity.java"

/-- Declarative reading of the JS regex: the pattern package="([^"]+)"
matches at start position i of s with capture b. -/
def pkgMatchAt (s : List Char) (i : Nat) (b : List Char) : Prop :=
  b ≠ [] ∧ '\"' ∉ b ∧ ∃ t, s.drop i = pkgPrefix ++ (b ++ '\"' :: t)

/-! ### The generated file templates (verbatim from createAndroidProject) -/

/-- strings.xml template. -/
def stringsXml (appName : String) : String :=
  "<?xml version=\"1.0\" encoding=\"utf-8\"?>\n<resources>\n    <string name=\"app_name\">"
    ++ appName ++ "</string>\n</resources>"

/-- Project-level build.gradle (static). -/
def projectBuildGradle : String :=
  "buildscript \x7b\n    repositories \x7b\n        google()\n        mavenCentral()\n    \x7d\n    dependencies \x7b\n        classpath 'com.android.tools.build:gradle:8.1.0'\n    \x7d\n\x7d\n\nallprojects \x7b\n    repositories \x7b\n        google()\n        mavenCentral()\n    \x7d\n\x7d\n\ntask clean(type: Delete) \x7b\n    delete rootProject.buildDir\n\x7d"

/-- Module-level app/build.gradle, parameterized by the package name. -/
def appBuildGradle (pkg : String) : String :=
  "plugins \x7b\n    id 'com.android.application'\n\x7d\n\nandroid \x7b\n    namespace '"
    ++ pkg ++
    "'\n    compileSdk 34\n\n    defaultConfig \x7b\n        applicationId \""
    ++ pkg ++
    "\"\n        minSdk 21\n        targetSdk 34\n        versionCode 1\n        versionName \"1.0\"\n    \x7d\n\n    buildTypes \x7b\n        release \x7b\n            minifyEnabled false\n            proguardFiles getDefaultProguardFile('proguard-android-optimize.txt'), 'proguard-rules.pro'\n        \x7d\n    \x7d\n    compileOptions \x7b\n        sourceCompatibility JavaVersion.VERSION_1_8\n        targetCompatibility JavaVersion.VERSION_1_8\n    \x7d\n\x7d\n\ndependencies \x7b\n    implementation 'androidx.appcompat:appcompat:1.6.1'\n    implementation 'com.google.android.material:material:1.9.0'\n    implementation 'androidx.constraintlayout:constraintlayout:2.1.4'\n\x7d"

/-- gradle.properties (static). -/
def gradleProperties : String :=
  "org.gradle.jvmargs=-Xmx1024m -XX:MaxMetaspaceSize=512m -Dfile.encoding=UTF-8\norg.gradle.daemon=false\norg.gradle.parallel=false\norg.gradle.configureondemand=false\nandroid.useAndroidX=true\nandroid.enableJetifier=true\nandroid.builder.sdkDownload=false"

/-- settings.gradle, parameterized by the application name. -/
def settingsGradle (appName : String) : String :=
  "pluginManagement \x7b\n    repositories \x7b\n        google()\n        mavenCentral()\n        gradlePluginPortal()\n    \x7d\n\x7d\ndependencyResolutionManagement \x7b\n    repositoriesMode.set(RepositoriesMode.FAIL_ON_PROJECT_REPOS)\n    repositories \x7b\n        google()\n        mavenCentral()\n    \x7d\n\x7d\nrootProject.name = \""
    ++ appName ++ "\"\ninclude ':app'"

/-- The base64 text whose decoding is the placeholder launcher icon bytes. -/
def iconPngBase64 : String :=
  "iVBORw0KGgoAAAANSUhEUgAAAAEAAAABCAYAAAAfFcSJAAAADUlEQVR42mP8/5+hHgAHggJ/PchI7wAAAABJRU5ErkJggg=="

/-! ### Workspace materialization (createAndroidProject) -/

/-- Content written to a file: verbatim text, or binary bytes given by a
base64 literal (the placeholder icon). -/
inductive FileContent where
  | text (s : String)
  | base64 (b64 : String)
deriving DecidableEq

/-- One filesystem operation of createAndroidProject.  Paths are relative to
the workspace directory (the source joins them under projectDir). -/
inductive FsOp where
  | ensureDir (p : String)
  | writeFile (p : String) (content : FileContent)
deriving DecidableEq

/-- The workspace tree: directories created and files written, in order. -/
structure Workspace where
  dirs : List String
  files : List (String × FileContent)
deriving DecidableEq

/-- Effect of one successful operation on the workspace. -/
def applyOp (w : Workspace) : FsOp → Workspace
  | .ensureDir p => ⟨w.dirs ++ [p], w.files⟩
  | .writeFile p c => ⟨w.dirs, w.files ++ [(p, c)]⟩

/-- Run the operations sequentially.  The oracle gives, for the k-th
operation overall, none on success or some message when that filesystem
call throws; the first failure aborts the whole stage with that message
(the await in the handler rethrows it). -/
def runOps (ok : Nat → Option String) : Nat → Workspace → List FsOp → Except String Workspace
  | _, w, [] => Except.ok w
  | i, w, op :: rest =>
    match ok i with
    | none => runOps ok (i + 1) (applyOp w op) rest
    | some e => Except.error e

/-- The inputs of createAndroidProject after destructuring. -/
structure CompileInputs where
  manifest : String
  mainActivity : String
  layout : String
  appName : String
deriving DecidableEq

/-- The nine directories ensured by createAndroidProject, in source order. -/
def projectDirsList (inp : CompileInputs) : List String :=
  ["app/src/main/java/" ++ packagePath (packageName inp.manifest),
   "app/src/main/res/layout",
   "app/src/main/res/values",
   "app/src/main/res/drawable",
   "app/src/main/res/mipmap-hdpi",
   "app/src/main/res/mipmap-mdpi",
   "app/src/main/res/mipmap-xhdpi",
   "app/src/main/res/mipmap-xxhdpi",
   "app/src/main/res/mipmap-xxxhdpi"]

/-- The five icon resolution buckets, in source order. -/
def iconDirsList : List String :=
  ["mipmap-hdpi", "mipmap-mdpi", "mipmap-xhdpi", "mipmap-xxhdpi", "mipmap-xxxhdpi"]

/-- The ordered list of filesystem operations createAndroidProject performs. -/
def projectOps (inp : CompileInputs) : List FsOp :=
  (projectDirsList inp).map FsOp.ensureDir ++
  [FsOp.writeFile "app/src/main/AndroidManifest.xml" (.text inp.manifest),
   FsOp.writeFile ("app/src/main/java/" ++ packagePath (packageName inp.manifest)
      ++ "/MainActivity.java") (.text inp.mainActivity),
   FsOp.writeFile "app/src/main/res/layout/activity_main.xml" (.text inp.layout),
   FsOp.writeFile "app/src/main/res/values/strings.xml" (.text (stringsXml inp.appName)),
   FsOp.writeFile "build.gradle" (.text projectBuildGradle),
   FsOp.writeFile "app/build.gradle" (.text (appBuildGradle (packageName inp.manifest))),
   FsOp.writeFile "gradle.properties" (.text gradleProperties),
   FsOp.writeFile "settings.gradle" (.text (settingsGradle inp.appName))] ++
  iconDirsList.map fun d =>
    FsOp.writeFile ("app/src/main/res/" ++ d ++ "/ic_launcher.png") (.base64 iconPngBase64)

/-- createAndroidProject: run all operations from an empty workspace. -/
def createAndroidProject (inp : CompileInputs) (ok : Nat → Option String) :
    Except String Workspace :=
  runOps ok 0 ⟨[], []⟩ (projectOps inp)

/-- The complete file set of a fully materialized workspace, in write order. -/
def expectedFiles (inp : CompileInputs) : List (String × FileContent) :=
  [("app/src/main/AndroidManifest.xml", .text inp.manifest),
   ("app/src/main/java/" ++ packagePath (packageName inp.manifest)
      ++ "/MainActivity.java", .text inp.mainActivity),
   ("app/src/main/res/layout/activity_main.xml", .text inp.layout),
   ("app/src/main/res/values/strings.xml", .text (stringsXml inp.appName)),
   ("build.gradle", .text projectBuildGradle),
   ("app/build.gradle", .text (appBuildGradle (packageName inp.manifest))),
   ("gradle.properties", .text gradleProperties),
   ("settings.gradle", .text (settingsGradle inp.appName)),
   ("app/src/main/res/mipmap-hdpi/ic_launcher.png", .base64 iconPngBase64),
   ("app/src/main/res/mipmap-mdpi/ic_launcher.png", .base64 iconPngBase64),
   ("app/src/main/res/mipmap-xhdpi/ic_launcher.png", .base64 iconPngBase64),
   ("app/src/main/res/mipmap-xxhdpi/ic_launcher.png", .base64 iconPngBase64),
   ("app/src/main/res/mipmap-xxxhdpi/ic_launcher.png", .base64 iconPngBase64)]

/-! ### Build invocation (compileAPK) -/

/-- The conventional artifact output path checked by compileAPK
(path.join of projectDir with the fixed relative path). -/
def apkOutputPath (projectDir : String) : String :=
  projectDir ++ "/app/build/outputs/apk/release/app-release-unsigned.apk"

/-- compileAPK's outcome resolution.  wrapperSetup is the outcome of the
awaited createGradleWrapper bootstrap; exitCode and errorOutput are the
child process's close code and accumulated stderr; apkExists is the
fs.existsSync oracle.  Returns whether the gradle child was spawned,
paired with the promise's resolution. -/
def compileAPK (projectDir : String) (wrapperSetup : Except String Unit)
    (exitCode : Int) (errorOutput : String) (apkExists : String → Bool) :
    Bool × Except String String :=
  match wrapperSetup with
  | .error e => (false, .error ("Failed to setup Gradle wrapper: " ++ e))
  | .ok _ =>
    if exitCode = 0 then
      if apkExists (apkOutputPath projectDir) then
        (true, .ok (apkOutputPath projectDir))
      else
        (true, .error "APK file not found after build")
    else
      (true, .error ("Gradle build failed with code " ++ toString exitCode ++ ": " ++ errorOutput))

/-! ### Wrapper jar download (createGradleWrapper's downloadFile) -/

/-- What one HTTP GET of a URL yields: a response (status code, optional
Location header, and for a 200 whether piping the body to the file stream
errors), or a connection error. -/
inductive NetOutcome where
  | response (statusCode : Nat) (location : Option String) (streamErr : Option String)
  | connError (msg : String)

/-- The fixed redirect-limit error message. -/
def tooManyRedirectsMsg : String := "Too many redirects"

/-- Fuel-indexed unfolding of the recursive downloadFile.  The fuel argument
is only a termination device: with the invariant fuel = 6 - redirectCount
maintained by downloadFile below, the fuel-exhausted branch fires exactly
when redirectCount exceeds 5, producing the same error the source does.
The Bool in the result records whether the partially written file was
deleted (fs.unlink on a file-stream error). -/
def downloadGo (net : String → NetOutcome) : Nat → String → Nat → Except String Unit × Bool
  | 0, _, _ => (.error tooManyRedirectsMsg, false)
  | fuel + 1, url, redirectCount =>
    if redirectCount > 5 then (.error tooManyRedirectsMsg, false)
    else
      match net url with
      | .response code loc se =>
        if code = 200 then
          match se with
          | none => (.ok (), false)
          | some e => (.error e, true)
        else if code = 302 ∨ code = 301 then
          match loc with
          | some l => downloadGo net fuel l (redirectCount + 1)
          | none => (.error "Redirect without location header", false)
        else
          (.error ("Failed to download gradle-wrapper.jar: " ++ toString code), false)
      | .connError e => (.error e, false)

/-- downloadFile(url, redirectCount) of createGradleWrapper. -/
def downloadFile (net : String → NetOutcome) (url : String) (redirectCount : Nat) :
    Except String Unit × Bool :=
  downloadGo net (6 - redirectCount) url redirectCount

/-! ### The HTTP handler (POST /compile-apk) -/

/-- The parsed JSON request body; a missing field is none. -/
structure RequestBody where
  manifest : Option String
  mainActivity : Option String
  layout : Option String
  appName : Option String

/-- The oracles describing the environment of one request: the filesystem
oracle for materialization, the bootstrap outcome, the gradle child's exit
code and stderr, the artifact-existence and file-content oracles, and
whether the best-effort workspace deletion itself succeeds. -/
structure BuildEnv where
  fsOk : Nat → Option String
  wrapperSetup : Except String Unit
  exitCode : Int
  errorOutput : String
  apkExists : String → Bool
  fileContent : String → String
  removeOk : Bool

/-- Observable events of one request, in order. -/
inductive Event where
  | workspaceAttempted (dir : String)
  | compileInvoked (spawned : Bool)
  | responseSent (status : Nat)
  | cleanupScheduled (dir : String) (delayMs : Nat)
  | cleanupAttempted (dir : String) (removeOk : Bool)
deriving DecidableEq

/-- The HTTP response of the handler. -/
inductive Response where
  | badRequest (error : String)
  | serverError (error : String) (details : String)
  | download (filename : String) (body : String)
deriving DecidableEq

/-- HTTP status of each response form. -/
def statusOf : Response → Nat
  | .badRequest _ => 400
  | .serverError _ _ => 500
  | .download _ _ => 200

/-- Result of one request: the response plus the ordered event trace. -/
structure HandlerOutcome where
  response : Response
  events : List Event
deriving DecidableEq

/-- The try block of the handler, after validation passed: materialize the
workspace, compile, and either stream the artifact (scheduling cleanup
5000 ms after the response completes) or answer 500 and attempt cleanup
immediately, swallowing any deletion error. -/
def handleValid (inp : CompileInputs) (projectDir : String) (env : BuildEnv) :
    HandlerOutcome :=
  match createAndroidProject inp env.fsOk with
  | .error e =>
    ⟨.serverError "APK compilation failed" e,
     [.workspaceAttempted projectDir, .responseSent 500,
      .cleanupAttempted projectDir env.removeOk]⟩
  | .ok _ =>
    match compileAPK projectDir env.wrapperSetup env.exitCode env.errorOutput env.apkExists with
    | (spawned, .error msg) =>
      ⟨.serverError "APK compilation failed" msg,
       [.workspaceAttempted projectDir, .compileInvoked spawned, .responseSent 500,
        .cleanupAttempted projectDir env.removeOk]⟩
    | (spawned, .ok apkPath) =>
      ⟨.download (inp.appName ++ ".apk") (env.fileContent apkPath),
       [.workspaceAttempted projectDir, .compileInvoked spawned, .responseSent 200,
        .cleanupScheduled projectDir 5000]⟩

/-- The POST /compile-apk handler: destructure with the appName default,
validate, then run the try block. -/
def handleCompileApk (b : RequestBody) (projectDir : String) (env : BuildEnv) :
    HandlerOutcome :=
  if strFalsy b.manifest || strFalsy b.mainActivity || strFalsy b.layout then
    ⟨.badRequest missingFilesError, [.responseSent 400]⟩
  else
    handleValid
      ⟨b.manifest.getD "", b.mainActivity.getD "", b.layout.getD "",
       b.appName.getD "GeneratedApp"⟩
      projectDir env

/-! ### Posix path semantics for the traversal question -/

/-- Split a character string at every slash (posix separator). -/
def splitSlash : List Char → List (List Char)
  | [] => [[]]
  | c :: cs =>
    if c = '/' then [] :: splitSlash cs
    else
      match splitSlash cs with
      | [] => [[c]]
      | seg :: rest => (c :: seg) :: rest

/-- One step of posix path normalization over segments: empty and
single-dot segments vanish, a dot-dot segment pops, anything else is kept. -/
def normStep (acc : List (List Char)) (seg : List Char) : List (List Char) :=
  if seg = [] then acc
  else if seg = ['.'] then acc
  else if seg = ['.', '.'] then acc.dropLast
  else acc ++ [seg]

/-- path.join of an absolute, already-normalized base (given as its
segment list) with a relative path: normalize the relative path's segments
on top of the base. -/
def joinSegs (base : List (List Char)) (rel : List Char) : List (List Char) :=
  (splitSlash rel).foldl normStep base

/-! ### Concrete fixtures used by witnesses -/

/-- A manifest carrying a package attribute. -/
def exManifestPkg : String := "<manifest package=\"com.example.foo\">"

/-- A manifest with no package attribute. -/
def exManifestNone : String := "<manifest>"

/-- The path-traversal attempt named by the claim under examination. -/
def exManifestDots : String := "package=\"../../x\""

/-- A workspace base path (segments of a temp directory). -/
def exBase : List (List Char) := ["tmp".data, "temp".data, "job1".data]

/-- A fully valid request body. -/
def exBody : RequestBody :=
  ⟨some exManifestPkg, some "public class MainActivity \x7b\x7d", some "<LinearLayout/>",
   some "DemoApp"⟩

/-- A request body with an empty-string appName. -/
def exBodyEmptyName : RequestBody :=
  ⟨some exManifestPkg, some "public class MainActivity \x7b\x7d", some "<LinearLayout/>",
   some ""⟩

/-- A request body missing the manifest. -/
def exBodyMissing : RequestBody :=
  ⟨none, some "public class MainActivity \x7b\x7d", some "<LinearLayout/>", none⟩

/-- An environment in which everything succeeds. -/
def exEnvOk : BuildEnv :=
  ⟨fun _ => none, .ok (), 0, "", fun _ => true, fun _ => "APKBYTES", true⟩

/-- A filesystem oracle whose very first operation throws. -/
def exFsFail : Nat → Option String :=
  fun k => if k = 0 then some "EACCES" else none

/-- An environment whose first filesystem write throws. -/
def exEnvFsFail : BuildEnv :=
  ⟨exFsFail, .ok (), 0, "", fun _ => true, fun _ => "APKBYTES", true⟩

/-- A network that always answers with a self-redirecting 302. -/
def netLoop : String → NetOutcome := fun u => .response 302 (some u) none

/-- A network that answers 302 with no Location header. -/
def netNoLoc : String → NetOutcome := fun _ => .response 302 none none

/-- A network that answers 404. -/
def net404 : String → NetOutcome := fun _ => .response 404 none none

/-- A network that answers 200 but whose body stream errors. -/
def netStreamErr : String → NetOutcome := fun _ => .response 200 none (some "stream broke")

/-- A network whose connection fails. -/
def netConnErr : String → NetOutcome := fun _ => .connError "ECONNREFUSED"

/-! ## Helper lemmas -/

theorem strFalsy_some_false {s : String} (h : s ≠ "") : strFalsy (some s) = false := by
  simp [strFalsy, h]

theorem handle_valid_eq (b : RequestBody) (pd : String) (env : BuildEnv)
    (m mA l : String) (hm : b.manifest = some m) (hma : b.mainActivity = some mA)
    (hl : b.layout = some l) (h1 : m ≠ "") (h2 : mA ≠ "") (h3 : l ≠ "") :
    handleCompileApk b pd env =
      handleValid ⟨m, mA, l, b.appName.getD "GeneratedApp"⟩ pd env := by
  simp [handleCompileApk, hm, hma, hl, strFalsy_some_false h1, strFalsy_some_false h2,
    strFalsy_some_false h3]

theorem runOps_all_ok (ok : Nat → Option String) (h : ∀ j, ok j = none) :
    ∀ (ops : List FsOp) (i : Nat) (w : Workspace),
      runOps ok i w ops = .ok (ops.foldl applyOp w) := by
  intro ops
  induction ops with
  | nil => intro i w; rfl
  | cons op rest ih =>
    intro i w
    simp only [runOps, h i, List.foldl_cons]
    exact ih (i + 1) (applyOp w op)

theorem createAndroidProject_all_ok (inp : CompileInputs) (ok : Nat → Option String)
    (h : ∀ j, ok j = none) :
    createAndroidProject inp ok = .ok ⟨projectDirsList inp, expectedFiles inp⟩ := by
  rw [createAndroidProject, runOps_all_ok ok h]
  rfl

theorem runOps_first_failure (ok : Nat → Option String) :
    ∀ (ops : List FsOp) (i : Nat) (w : Workspace) (k : Nat) (e : String),
      ok (i + k) = some e → (∀ j, j < k → ok (i + j) = none) → k < ops.length →
      runOps ok i w ops = .error e := by
  intro ops
  induction ops with
  | nil => intro i w k e _ _ hk; simp at hk
  | cons op rest ih =>
    intro i w k e hke hbefore hk
    cases k with
    | zero =>
      simp only [Nat.add_zero] at hke
      simp [runOps, hke]
    | succ k' =>
      have h0 : ok i = none := by
        have := hbefore 0 (Nat.succ_pos k')
        simpa using this
      simp only [runOps, h0]
      refine ih (i + 1) (applyOp w op) k' e ?_ ?_ ?_
      · have : i + 1 + k' = i + (k' + 1) := by omega
        rw [this]; exact hke
      · intro j hj
        have : i + 1 + j = i + (j + 1) := by omega
        rw [this]; exact hbefore (j + 1) (by omega)
      · simpa using Nat.lt_of_succ_lt_succ (by simpa using hk)

/-! ## Claims -/

/-- C1: for every POST /compile-apk request in which manifest, mainActivity
or layout is absent or empty, the handler answers 400 with exactly the fixed
error body, and no workspace directory is created: the trace holds only the
400 response, in particular no workspace event for any directory. -/
theorem c1_missing_fields_rejected (b : RequestBody) (pd : String) (env : BuildEnv)
    (h : (strFalsy b.manifest || strFalsy b.mainActivity || strFalsy b.layout) = true) :
    handleCompileApk b pd env = ⟨.badRequest missingFilesError, [.responseSent 400]⟩ ∧
    statusOf (handleCompileApk b pd env).response = 400 ∧
    ∀ d, Event.workspaceAttempted d ∉ (handleCompileApk b pd env).events := by
  have he : handleCompileApk b pd env = ⟨.badRequest missingFilesError, [.responseSent 400]⟩ := by
    simp [handleCompileApk, h]
  refine ⟨he, ?_, ?_⟩
  · rw [he]; rfl
  · intro d; rw [he]; simp

/-- Witness for C1 at a concrete request missing the manifest. -/
theorem c1_missing_fields_rejected_witness :
    handleCompileApk exBodyMissing "tmp/temp/job1" exEnvOk
      = ⟨.badRequest missingFilesError, [.responseSent 400]⟩ :=
  (c1_missing_fields_rejected exBodyMissing "tmp/temp/job1" exEnvOk (by decide)).1

/-- C3: build outcome trichotomy of compileAPK once the wrapper bootstrap
succeeded: exit code 0 with the artifact present at the conventional output
path resolves to that path; exit code 0 without the artifact rejects with
the fixed not-found message; a non-zero exit code rejects with a message
carrying the code and the accumulated stderr text. -/
theorem c3_build_outcome_trichotomy (pd errOut : String) (apkExists : String → Bool)
    (code : Int) :
    (code = 0 → apkExists (apkOutputPath pd) = true →
      compileAPK pd (.ok ()) code errOut apkExists = (true, .ok (apkOutputPath pd))) ∧
    (code = 0 → apkExists (apkOutputPath pd) = false →
      compileAPK pd (.ok ()) code errOut apkExists =
        (true, .error "APK file not found after build")) ∧
    (code ≠ 0 →
      compileAPK pd (.ok ()) code errOut apkExists =
        (true, .error ("Gradle build failed with code " ++ toString code ++ ": " ++ errOut))) := by
  refine ⟨?_, ?_, ?_⟩
  · intro h he; simp [compileAPK, h, he]
  · intro h he; simp [compileAPK, h, he]
  · intro h; simp [compileAPK, h]

/-- Witness for C3 exercising all three branches at concrete inputs. -/
theorem c3_build_outcome_trichotomy_witness :
    compileAPK "w" (.ok ()) 0 "" (fun _ => true) = (true, .ok (apkOutputPath "w")) ∧
    compileAPK "w" (.ok ()) 0 "" (fun _ => false) =
      (true, .error "APK file not found after build") ∧
    compileAPK "w" (.ok ()) 1 "boom" (fun _ => true) =
      (true, .error ("Gradle build failed with code " ++ toString (1 : Int) ++ ": " ++ "boom")) :=
  ⟨(c3_build_outcome_trichotomy "w" "" (fun _ => true) 0).1 rfl rfl,
   (c3_build_outcome_trichotomy "w" "" (fun _ => false) 0).2.1 rfl rfl,
   (c3_build_outcome_trichotomy "w" "boom" (fun _ => true) 1).2.2 (by decide)⟩

/-- C8: if the wrapper bootstrap (script/config write or jar fetch) throws,
compileAPK rejects with the descriptive prefix on the underlying message and
the gradle child process is never spawned (first component false). -/
theorem c8_bootstrap_failure_never_spawns (pd errOut msg : String) (code : Int)
    (apkExists : String → Bool) :
    compileAPK pd (.error msg) code errOut apkExists =
      (false, .error ("Failed to setup Gradle wrapper: " ++ msg)) := rfl

/-- C6: on every validated request that then fails (materialization failure
or compileAPK rejection) the handler answers 500 with the fixed error and the
failure message as details, attempts workspace deletion on that path, and the
response does not depend on whether that deletion itself succeeds. -/
theorem c6_failure_path_500_and_cleanup (b : RequestBody) (pd : String)
    (fsOk : Nat → Option String) (ws : Except String Unit) (code : Int)
    (errOut : String) (apkExists : String → Bool) (fileContent : String → String)
    (ro : Bool) (m mA l : String)
    (hm : b.manifest = some m) (hma : b.mainActivity = some mA) (hl : b.layout = some l)
    (h1 : m ≠ "") (h2 : mA ≠ "") (h3 : l ≠ "") :
    (∀ e, createAndroidProject ⟨m, mA, l, b.appName.getD "GeneratedApp"⟩ fsOk = .error e →
       handleCompileApk b pd ⟨fsOk, ws, code, errOut, apkExists, fileContent, ro⟩ =
         ⟨.serverError "APK compilation failed" e,
          [.workspaceAttempted pd, .responseSent 500, .cleanupAttempted pd ro]⟩) ∧
    (∀ w sp msg,
       createAndroidProject ⟨m, mA, l, b.appName.getD "GeneratedApp"⟩ fsOk = .ok w →
       compileAPK pd ws code errOut apkExists = (sp, .error msg) →
       handleCompileApk b pd ⟨fsOk, ws, code, errOut, apkExists, fileContent, ro⟩ =
         ⟨.serverError "APK compilation failed" msg,
          [.workspaceAttempted pd, .compileInvoked sp, .responseSent 500,
           .cleanupAttempted pd ro]⟩) ∧
    (∀ ro2,
       (handleCompileApk b pd ⟨fsOk, ws, code, errOut, apkExists, fileContent, ro⟩).response =
       (handleCompileApk b pd ⟨fsOk, ws, code, errOut, apkExists, fileContent, ro2⟩).response) := by
  refine ⟨?_, ?_, ?_⟩
  · intro e hcp
    rw [handle_valid_eq b pd _ m mA l hm hma hl h1 h2 h3]
    simp [handleValid, hcp]
  · intro w sp msg hcp hk
    rw [handle_valid_eq b pd _ m mA l hm hma hl h1 h2 h3]
    simp [handleValid, hcp, hk]
  · intro ro2
    rw [handle_valid_eq b pd _ m mA l hm hma hl h1 h2 h3,
        handle_valid_eq b pd _ m mA l hm hma hl h1 h2 h3]
    rcases hcp : createAndroidProject ⟨m, mA, l, b.appName.getD "GeneratedApp"⟩ fsOk with e | w
    · simp [handleValid, hcp]
    · rcases hk : compileAPK pd ws code errOut apkExists with ⟨sp, r⟩
      cases r <;> simp [handleValid, hcp, hk]

/-- Witness for C6: a concrete request whose gradle build exits 1. -/
theorem c6_failure_path_500_and_cleanup_witness :
    handleCompileApk exBody "tmp/temp/job1"
        ⟨fun _ => none, .ok (), 1, "duplicate resource", fun _ => true, fun _ => "", true⟩ =
      ⟨.serverError "APK compilation failed"
         ("Gradle build failed with code " ++ toString (1 : Int) ++ ": " ++ "duplicate resource"),
       [.workspaceAttempted "tmp/temp/job1", .compileInvoked true, .responseSent 500,
        .cleanupAttempted "tmp/temp/job1" true]⟩ := by
  refine (c6_failure_path_500_and_cleanup exBody "tmp/temp/job1" (fun _ => none) (.ok ()) 1
      "duplicate resource" (fun _ => true) (fun _ => "") true
      exManifestPkg "public class MainActivity \x7b\x7d" "<LinearLayout/>"
      rfl rfl rfl (by decide) (by decide) (by decide)).2.1
    ⟨projectDirsList _, expectedFiles _⟩ true _
    (createAndroidProject_all_ok _ _ fun _ => rfl) ?_
  simp [compileAPK]

/-- C7: on every validated request whose materialization and build succeed,
the handler answers 200 with the artifact delivered as a download named
appName followed by .apk, body equal to the bytes at the artifact path, and
workspace deletion scheduled (with the 5000 ms grace delay) after the
response is sent. -/
theorem c7_success_download (b : RequestBody) (pd : String)
    (fsOk : Nat → Option String) (ws : Except String Unit) (code : Int)
    (errOut : String) (apkExists : String → Bool) (fileContent : String → String)
    (ro : Bool) (m mA l : String)
    (hm : b.manifest = some m) (hma : b.mainActivity = some mA) (hl : b.layout = some l)
    (h1 : m ≠ "") (h2 : mA ≠ "") (h3 : l ≠ "")
    (hfs : ∀ j, fsOk j = none) (hws : ws = .ok ()) (hcode : code = 0)
    (hae : apkExists (apkOutputPath pd) = true) :
    handleCompileApk b pd ⟨fsOk, ws, code, errOut, apkExists, fileContent, ro⟩ =
      ⟨.download (b.appName.getD "GeneratedApp" ++ ".apk") (fileContent (apkOutputPath pd)),
       [.workspaceAttempted pd, .compileInvoked true, .responseSent 200,
        .cleanupScheduled pd 5000]⟩ ∧
    statusOf (handleCompileApk b pd
        ⟨fsOk, ws, code, errOut, apkExists, fileContent, ro⟩).response = 200 := by
  have hcp := createAndroidProject_all_ok ⟨m, mA, l, b.appName.getD "GeneratedApp"⟩ fsOk hfs
  have hk : compileAPK pd ws code errOut apkExists = (true, .ok (apkOutputPath pd)) := by
    subst hws hcode; simp [compileAPK, hae]
  have he : handleCompileApk b pd ⟨fsOk, ws, code, errOut, apkExists, fileContent, ro⟩ =
      ⟨.download (b.appName.getD "GeneratedApp" ++ ".apk") (fileContent (apkOutputPath pd)),
       [.workspaceAttempted pd, .compileInvoked true, .responseSent 200,
        .cleanupScheduled pd 5000]⟩ := by
    rw [handle_valid_eq b pd _ m mA l hm hma hl h1 h2 h3]
    simp [handleValid, hcp, hk]
  exact ⟨he, by rw [he]; rfl⟩

/-- Witness for C7: the DemoApp request produces the download DemoApp.apk. -/
theorem c7_success_download_witness :
    handleCompileApk exBody "tmp/temp/job1" exEnvOk =
      ⟨.download ("DemoApp" ++ ".apk") "APKBYTES",
       [.workspaceAttempted "tmp/temp/job1", .compileInvoked true, .responseSent 200,
        .cleanupScheduled "tmp/temp/job1" 5000]⟩ :=
  (c7_success_download exBody "tmp/temp/job1" (fun _ => none) (.ok ()) 0 ""
    (fun _ => true) (fun _ => "APKBYTES") true
    exManifestPkg "public class MainActivity \x7b\x7d" "<LinearLayout/>"
    rfl rfl rfl (by decide) (by decide) (by decide)
    (fun _ => rfl) rfl rfl rfl).1

/-- C9: an explicitly empty appName field is used verbatim (the JS
destructuring default fires only when the field is absent): the success
download is named just .apk, and the generated strings.xml app-name resource
and settings.gradle root project name are the empty string. -/
theorem c9_empty_appname_used_verbatim (b : RequestBody) (pd : String)
    (fsOk : Nat → Option String) (errOut : String) (apkExists : String → Bool)
    (fileContent : String → String) (ro : Bool) (m mA l : String)
    (hm : b.manifest = some m) (hma : b.mainActivity = some mA) (hl : b.layout = some l)
    (h1 : m ≠ "") (h2 : mA ≠ "") (h3 : l ≠ "")
    (hn : b.appName = some "")
    (hfs : ∀ j, fsOk j = none) (hae : apkExists (apkOutputPath pd) = true) :
    b.appName.getD "GeneratedApp" = "" ∧
    (handleCompileApk b pd ⟨fsOk, .ok (), 0, errOut, apkExists, fileContent, ro⟩).response =
      .download ".apk" (fileContent (apkOutputPath pd)) ∧
    stringsXml "" =
      "<?xml version=\"1.0\" encoding=\"utf-8\"?>\n<resources>\n    <string name=\"app_name\"></string>\n</resources>" ∧
    settingsGradle "" =
      "pluginManagement \x7b\n    repositories \x7b\n        google()\n        mavenCentral()\n        gradlePluginPortal()\n    \x7d\n\x7d\ndependencyResolutionManagement \x7b\n    repositoriesMode.set(RepositoriesMode.FAIL_ON_PROJECT_REPOS)\n    repositories \x7b\n        google()\n        mavenCentral()\n    \x7d\n\x7d\nrootProject.name = \"\"\ninclude ':app'" := by
  have hgd : b.appName.getD "GeneratedApp" = "" := by rw [hn]; rfl
  refine ⟨hgd, ?_, rfl, rfl⟩
  have hcp := createAndroidProject_all_ok ⟨m, mA, l, b.appName.getD "GeneratedApp"⟩ fsOk hfs
  have hk : compileAPK pd (.ok ()) 0 errOut apkExists = (true, .ok (apkOutputPath pd)) := by
    simp [compileAPK, hae]
  rw [hgd] at hcp
  rw [handle_valid_eq b pd _ m mA l hm hma hl h1 h2 h3, hgd]
  simp [handleValid, hcp, hk]

/-- Witness for C9 at a concrete request whose appName is the empty string. -/
theorem c9_empty_appname_used_verbatim_witness :
    (handleCompileApk exBodyEmptyName "tmp/temp/job1" exEnvOk).response =
      .download ".apk" "APKBYTES" :=
  (c9_empty_appname_used_verbatim exBodyEmptyName "tmp/temp/job1" (fun _ => none) ""
    (fun _ => true) (fun _ => "APKBYTES") true
    exManifestPkg "public class MainActivity \x7b\x7d" "<LinearLayout/>"
    rfl rfl rfl (by decide) (by decide) (by decide) rfl
    (fun _ => rfl) rfl).2.1

theorem downloadGo_all_redirect (net : String → NetOutcome)
    (hred : ∀ u, ∃ l se, net u = .response 302 (some l) se) :
    ∀ (fuel : Nat) (url : String) (c : Nat),
      downloadGo net fuel url c = (.error tooManyRedirectsMsg, false) := by
  intro fuel
  induction fuel with
  | zero => intro url c; rfl
  | succ f ih =>
    intro url c
    by_cases hc : c > 5
    · simp [downloadGo, hc]
    · obtain ⟨l, se, hnet⟩ := hred url
      simp [downloadGo, hc, hnet, ih]

/-- C5: the wrapper-jar fetch follows 301/302 redirects via the Location
header, incrementing the hop counter, and terminates: past the bound of 5
the result is the fixed too-many-redirects error; a redirect without a
Location header fails; any non-redirect non-200 status fails with the
status code; a body-stream error fails and deletes the partial file (flag
true); a connection error fails; and against a network that always
redirects the fetch resolves to the too-many-redirects error instead of
recursing forever. -/
theorem c5_redirect_bounded (net : String → NetOutcome) (url : String) (c : Nat) :
    (c > 5 → downloadFile net url c = (.error tooManyRedirectsMsg, false)) ∧
    (c ≤ 5 → ∀ code loc se, (code = 301 ∨ code = 302) → net url = .response code loc se →
        (loc = none →
          downloadFile net url c = (.error "Redirect without location header", false)) ∧
        (∀ l, loc = some l → downloadFile net url c = downloadFile net l (c + 1))) ∧
    (c ≤ 5 → ∀ code loc se, net url = .response code loc se →
        code ≠ 200 → code ≠ 301 → code ≠ 302 →
        downloadFile net url c =
          (.error ("Failed to download gradle-wrapper.jar: " ++ toString code), false)) ∧
    (c ≤ 5 → ∀ loc e, net url = .response 200 loc (some e) →
        downloadFile net url c = (.error e, true)) ∧
    (c ≤ 5 → ∀ e, net url = .connError e → downloadFile net url c = (.error e, false)) ∧
    ((∀ u, ∃ l se, net u = .response 302 (some l) se) →
        downloadFile net url c = (.error tooManyRedirectsMsg, false)) := by
  refine ⟨?_, ?_, ?_, ?_, ?_, ?_⟩
  · intro h
    have h0 : 6 - c = 0 := by omega
    rw [downloadFile, h0]; rfl
  · intro h code loc se hcode hnet
    have hng : ¬ c > 5 := by omega
    have h1 : 6 - c = (5 - c) + 1 := by omega
    constructor
    · intro hloc; subst hloc
      rw [downloadFile, h1]
      rcases hcode with rfl | rfl <;> simp [downloadGo, hng, hnet]
    · intro l hloc; subst hloc
      have h2 : 6 - (c + 1) = 5 - c := by omega
      rw [downloadFile, downloadFile, h1, h2]
      rcases hcode with rfl | rfl <;> simp [downloadGo, hng, hnet]
  · intro h code loc se hnet h200 h301 h302
    have hng : ¬ c > 5 := by omega
    have h1 : 6 - c = (5 - c) + 1 := by omega
    rw [downloadFile, h1]
    simp [downloadGo, hng, hnet, h200, h301, h302]
  · intro h loc e hnet
    have hng : ¬ c > 5 := by omega
    have h1 : 6 - c = (5 - c) + 1 := by omega
    rw [downloadFile, h1]
    simp [downloadGo, hng, hnet]
  · intro h e hnet
    have hng : ¬ c > 5 := by omega
    have h1 : 6 - c = (5 - c) + 1 := by omega
    rw [downloadFile, h1]
    simp [downloadGo, hng, hnet]
  · intro hred
    rw [downloadFile]
    exact downloadGo_all_redirect net hred _ _ _

/-- Witness for C5 exercising every branch at concrete networks. -/
theorem c5_redirect_bounded_witness :
    downloadFile netLoop "u" 7 = (.error tooManyRedirectsMsg, false) ∧
    downloadFile netNoLoc "u" 0 = (.error "Redirect without location header", false) ∧
    downloadFile net404 "u" 0 =
      (.error ("Failed to download gradle-wrapper.jar: " ++ toString (404 : Nat)), false) ∧
    downloadFile netStreamErr "u" 0 = (.error "stream broke", true) ∧
    downloadFile netConnErr "u" 0 = (.error "ECONNREFUSED", false) ∧
    downloadFile netLoop "u" 0 = (.error tooManyRedirectsMsg, false) :=
  ⟨(c5_redirect_bounded netLoop "u" 7).1 (by omega),
   ((c5_redirect_bounded netNoLoc "u" 0).2.1 (by omega) 302 none none (Or.inr rfl) rfl).1 rfl,
   (c5_redirect_bounded net404 "u" 0).2.2.1 (by omega) 404 none none rfl
     (by decide) (by decide) (by decide),
   (c5_redirect_bounded netStreamErr "u" 0).2.2.2.1 (by omega) none "stream broke" rfl,
   (c5_redirect_bounded netConnErr "u" 0).2.2.2.2.1 (by omega) "ECONNREFUSED" rfl,
   (c5_redirect_bounded netLoop "u" 0).2.2.2.2.2 (fun u => ⟨u, none, rfl⟩)⟩

/-- C4: on a validated request, the whole workspace is materialized before
the build invoker runs: with no filesystem failure, createAndroidProject
produces exactly the nine project directories and the complete file set
(supplied manifest, main activity and layout verbatim at their fixed
locations, plus strings.xml, both build files, gradle.properties,
settings.gradle and the five placeholder icons); the first failing
filesystem operation aborts the stage with that failure; and after a
materialization failure the build invocation never appears in the
request's trace. -/
theorem c4_full_materialization_before_build (b : RequestBody) (pd : String)
    (fsOk : Nat → Option String) (ws : Except String Unit) (code : Int)
    (errOut : String) (apkExists : String → Bool) (fileContent : String → String)
    (ro : Bool) (m mA l : String)
    (hm : b.manifest = some m) (hma : b.mainActivity = some mA) (hl : b.layout = some l)
    (h1 : m ≠ "") (h2 : mA ≠ "") (h3 : l ≠ "") :
    ((∀ j, fsOk j = none) →
        createAndroidProject ⟨m, mA, l, b.appName.getD "GeneratedApp"⟩ fsOk =
          .ok ⟨projectDirsList ⟨m, mA, l, b.appName.getD "GeneratedApp"⟩,
               expectedFiles ⟨m, mA, l, b.appName.getD "GeneratedApp"⟩⟩) ∧
    (∀ k e, fsOk k = some e → (∀ j, j < k → fsOk j = none) →
        k < (projectOps ⟨m, mA, l, b.appName.getD "GeneratedApp"⟩).length →
        createAndroidProject ⟨m, mA, l, b.appName.getD "GeneratedApp"⟩ fsOk = .error e) ∧
    (∀ e, createAndroidProject ⟨m, mA, l, b.appName.getD "GeneratedApp"⟩ fsOk = .error e →
        ∀ sp, Event.compileInvoked sp ∉
          (handleCompileApk b pd ⟨fsOk, ws, code, errOut, apkExists, fileContent, ro⟩).events) := by
  refine ⟨?_, ?_, ?_⟩
  · intro hall
    exact createAndroidProject_all_ok _ fsOk hall
  · intro k e hke hbefore hk
    rw [createAndroidProject]
    refine runOps_first_failure fsOk _ 0 ⟨[], []⟩ k e ?_ ?_ hk
    · simpa using hke
    · intro j hj; simpa using hbefore j hj
  · intro e hcp sp
    rw [handle_valid_eq b pd _ m mA l hm hma hl h1 h2 h3]
    simp [handleValid, hcp]

/-- Witness for C4: full materialization of a concrete request, and the
same request aborted by a first-write failure with no build invocation. -/
theorem c4_full_materialization_before_build_witness :
    createAndroidProject
        ⟨exManifestPkg, "public class MainActivity \x7b\x7d", "<LinearLayout/>", "DemoApp"⟩
        (fun _ => none) =
      .ok ⟨projectDirsList
             ⟨exManifestPkg, "public class MainActivity \x7b\x7d", "<LinearLayout/>", "DemoApp"⟩,
           expectedFiles
             ⟨exManifestPkg, "public class MainActivity \x7b\x7d", "<LinearLayout/>", "DemoApp"⟩⟩ ∧
    createAndroidProject
        ⟨exManifestPkg, "public class MainActivity \x7b\x7d", "<LinearLayout/>", "DemoApp"⟩
        exFsFail = .error "EACCES" ∧
    ∀ sp, Event.compileInvoked sp ∉
      (handleCompileApk exBody "tmp/temp/job1" exEnvFsFail).events := by
  have h := c4_full_materialization_before_build exBody "tmp/temp/job1" exFsFail (.ok ()) 0 ""
    (fun _ => true) (fun _ => "APKBYTES") true
    exManifestPkg "public class MainActivity \x7b\x7d" "<LinearLayout/>"
    rfl rfl rfl (by decide) (by decide) (by decide)
  have hfail : createAndroidProject
      ⟨exManifestPkg, "public class MainActivity \x7b\x7d", "<LinearLayout/>", "DemoApp"⟩
      exFsFail = .error "EACCES" := by
    refine h.2.1 0 "EACCES" rfl (fun j hj => absurd hj (Nat.not_lt_zero j)) ?_
    decide
  have hok := c4_full_materialization_before_build exBody "tmp/temp/job1" (fun _ => none)
    (.ok ()) 0 "" (fun _ => true) (fun _ => "APKBYTES") true
    exManifestPkg "public class MainActivity \x7b\x7d" "<LinearLayout/>"
    rfl rfl rfl (by decide) (by decide) (by decide)
  exact ⟨hok.1 (fun _ => rfl), hfail, fun sp => h.2.2 "EACCES" hfail sp⟩

theorem takeWhile_append_of (p : Char → Bool) :
    ∀ (b : List Char), (∀ c ∈ b, p c = true) → ∀ (c0 : Char), p c0 = false → ∀ t,
      (b ++ c0 :: t).takeWhile p = b := by
  intro b
  induction b with
  | nil => intro _ c0 hc0 t; simp [List.takeWhile_cons, hc0]
  | cons x xs ih =>
    intro hall c0 hc0 t
    have hx : p x = true := hall x (List.mem_cons_self x xs)
    simp only [List.cons_append, List.takeWhile_cons, hx, if_true]
    rw [ih (fun c hc => hall c (List.mem_cons_of_mem x hc)) c0 hc0 t]

theorem matchPkgAt_complete {s b : List Char} (h : pkgMatchAt s 0 b) :
    matchPkgAt s = some b := by
  obtain ⟨hb, hq, t, hs⟩ := h
  rw [List.drop_zero] at hs
  have hpre : pkgPrefix.isPrefixOf s = true := by
    rw [hs]
    exact List.isPrefixOf_iff_prefix.mpr ⟨b ++ '\"' :: t, rfl⟩
  have hrest : s.drop pkgPrefix.length = b ++ '\"' :: t := by
    rw [hs, List.drop_left]
  have hbody : (b ++ '\"' :: t).takeWhile (fun c => !(c == '\"')) = b := by
    refine takeWhile_append_of _ b ?_ '\"' (by decide) t
    intro c hc
    have hne : c ≠ '\"' := fun he => hq (he ▸ hc)
    simp [hne]
  have hdrop : (b ++ '\"' :: t).drop b.length = '\"' :: t := List.drop_left b ('\"' :: t)
  simp only [matchPkgAt, hpre, if_true, hrest, hbody, hdrop, hb, if_false,
    List.head?_cons, if_pos rfl]

theorem matchPkgAt_sound {s b : List Char} (h : matchPkgAt s = some b) :
    pkgMatchAt s 0 b := by
  by_cases hpre : pkgPrefix.isPrefixOf s
  case neg => simp [matchPkgAt, hpre] at h
  case pos =>
    obtain ⟨u, hu⟩ : ∃ u, pkgPrefix ++ u = s := List.isPrefixOf_iff_prefix.mp hpre
    have hrest : s.drop pkgPrefix.length = u := by rw [← hu, List.drop_left]
    simp only [matchPkgAt, hpre, if_true, hrest] at h
    by_cases hb : u.takeWhile (fun c => !(c == '\"')) = []
    · simp [hb] at h
    · simp only [hb, if_false] at h
      by_cases hh : (u.drop (u.takeWhile (fun c => !(c == '\"'))).length).head? = some '\"'
      · rw [if_pos hh] at h
        have hbeq : u.takeWhile (fun c => !(c == '\"')) = b := by
          exact Option.some.inj h
        refine ⟨hbeq ▸ hb, ?_, ?_⟩
        · intro hmem
          have := List.mem_takeWhile_imp (hbeq ▸ hmem)
          simp at this
        · obtain ⟨d, hd⟩ : ∃ d, u.drop b.length = '\"' :: d := by
            rw [hbeq] at hh
            cases hdr : u.drop b.length with
            | nil => rw [hdr] at hh; simp at hh
            | cons y ys =>
              rw [hdr] at hh
              simp only [List.head?_cons, Option.some.injEq] at hh
              exact ⟨ys, by rw [hh]⟩
          refine ⟨d, ?_⟩
          rw [List.drop_zero, ← hu]
          have htake : u.take b.length = b := by
            have hpfx : b <+: u := hbeq ▸ List.takeWhile_prefix _
            exact (List.prefix_iff_eq_take.mp hpfx).symm
          have hu2 : u = b ++ '\"' :: d := by
            calc u = u.take b.length ++ u.drop b.length := (List.take_append_drop _ u).symm
              _ = b ++ '\"' :: d := by rw [htake, hd]
          rw [hu2]
      · rw [if_neg hh] at h; cases h

theorem pkgMatchAt_succ {c : Char} {s : List Char} {i : Nat} {b : List Char} :
    pkgMatchAt (c :: s) (i + 1) b ↔ pkgMatchAt s i b := by
  simp [pkgMatchAt, List.drop_succ_cons]

theorem pkgMatchAt_nil (i : Nat) (b : List Char) : ¬ pkgMatchAt [] i b := by
  rintro ⟨hb, hq, t, ht⟩
  rw [List.drop_nil] at ht
  simp [pkgPrefix] at ht

theorem findPackageName_some : ∀ {s b : List Char}, findPackageName s = some b →
    ∃ i, pkgMatchAt s i b ∧ ∀ j b2, pkgMatchAt s j b2 → i ≤ j := by
  intro s
  induction s with
  | nil => intro b h; simp [findPackageName] at h
  | cons c cs ih =>
    intro b h
    rw [findPackageName] at h
    cases hm : matchPkgAt (c :: cs) with
    | some b0 =>
      rw [hm] at h
      have hb : b0 = b := Option.some.inj h
      exact ⟨0, matchPkgAt_sound (hb ▸ hm), fun j b2 _ => Nat.zero_le j⟩
    | none =>
      rw [hm] at h
      obtain ⟨i, hmatch, hmin⟩ := ih h
      refine ⟨i + 1, pkgMatchAt_succ.mpr hmatch, ?_⟩
      intro j b2 hj
      cases j with
      | zero =>
        have := matchPkgAt_complete hj
        rw [hm] at this
        cases this
      | succ j' => exact Nat.succ_le_succ (hmin j' b2 (pkgMatchAt_succ.mp hj))

theorem findPackageName_none : ∀ {s : List Char}, findPackageName s = none →
    ∀ i b, ¬ pkgMatchAt s i b := by
  intro s
  induction s with
  | nil => intro _ i b; exact pkgMatchAt_nil i b
  | cons c cs ih =>
    intro h
    rw [findPackageName] at h
    cases hm : matchPkgAt (c :: cs) with
    | some b0 => rw [hm] at h; cases h
    | none =>
      rw [hm] at h
      intro i b
      cases i with
      | zero =>
        intro hp
        have := matchPkgAt_complete hp
        rw [hm] at this
        cases this
      | succ i' => intro hp; exact ih h i' b (pkgMatchAt_succ.mp hp)

/-- C2: the package identifier is the first capture of the pattern
package="([^"]+)" over the manifest characters (the returned capture is
nonempty, quote-free, matches at some position, and no earlier position
matches); when no position matches, the fixed fallback com.apkforge.app is
used; and the main source file's path is the identifier with every dot
replaced by a slash, spliced between the fixed java source prefix and
/MainActivity.java. -/
theorem c2_package_extraction (manifest : String) :
    (∀ b, findPackageName manifest.data = some b →
        packageName manifest = String.mk b ∧
        ∃ i, pkgMatchAt manifest.data i b ∧
          ∀ j b2, pkgMatchAt manifest.data j b2 → i ≤ j) ∧
    (findPackageName manifest.data = none →
        packageName manifest = "com.apkforge.app" ∧
        ∀ i b, ¬ pkgMatchAt manifest.data i b) ∧
    mainActivityRelPath manifest =
      "app/src/main/java/" ++
        String.mk ((packageName manifest).data.map fun c => if c = '.' then '/' else c) ++
        "/MainActivity.java" := by
  refine ⟨?_, ?_, rfl⟩
  · intro b h
    exact ⟨by simp [packageName, h], findPackageName_some h⟩
  · intro h
    exact ⟨by simp [packageName, h], findPackageName_none h⟩

/-- Witness for C2: extraction on a manifest with a package attribute, the
fallback on a manifest without one, and the derived source path containing
com/example/foo. -/
theorem c2_package_extraction_witness :
    packageName exManifestPkg = "com.example.foo" ∧
    (∃ i, pkgMatchAt exManifestPkg.data i ("com.example.foo".data) ∧
       ∀ j b2, pkgMatchAt exManifestPkg.data j b2 → i ≤ j) ∧
    packageName exManifestNone = "com.apkforge.app" ∧
    mainActivityRelPath exManifestPkg =
      "app/src/main/java/com/example/foo/MainActivity.java" := by
  have h1 := (c2_package_extraction exManifestPkg).1 ("com.example.foo".data) rfl
  have h2 := (c2_package_extraction exManifestNone).2.1 rfl
  exact ⟨h1.1, h1.2, h2.1, rfl⟩

theorem splitSlash_ne_nil : ∀ (l : List Char), splitSlash l ≠ [] := by
  intro l
  cases l with
  | nil => simp [splitSlash]
  | cons c cs =>
    by_cases h : c = '/'
    · simp [splitSlash, h]
    · simp only [splitSlash, h, if_false]
      cases hs : splitSlash cs <;> simp

theorem splitSlash_append (a b : List Char) :
    splitSlash (a ++ '/' :: b) = splitSlash a ++ splitSlash b := by
  induction a with
  | nil => simp [splitSlash]
  | cons c cs ih =>
    by_cases h : c = '/'
    · simp [splitSlash, h, ih]
    · rw [List.cons_append, splitSlash, if_neg h, ih]
      rw [splitSlash, if_neg h]
      cases hs : splitSlash cs with
      | nil => exact absurd hs (splitSlash_ne_nil cs)
      | cons seg rest => simp

theorem mem_splitSlash_mem : ∀ (l seg : List Char), seg ∈ splitSlash l →
    ∀ c, c ∈ seg → c ∈ l := by
  intro l
  induction l with
  | nil =>
    intro seg hseg c hc
    simp [splitSlash] at hseg
    subst hseg
    simp at hc
  | cons x xs ih =>
    intro seg hseg c hc
    by_cases h : x = '/'
    · rw [splitSlash, if_pos h] at hseg
      rcases List.mem_cons.mp hseg with rfl | hmem
      · simp at hc
      · exact List.mem_cons_of_mem x (ih seg hmem c hc)
    · cases hs : splitSlash xs with
      | nil => exact absurd hs (splitSlash_ne_nil xs)
      | cons s0 rest =>
        rw [splitSlash, if_neg h, hs] at hseg
        rcases List.mem_cons.mp hseg with rfl | hmem
        · rcases List.mem_cons.mp hc with rfl | hc0
          · exact List.mem_cons_self c xs
          · exact List.mem_cons_of_mem x
              (ih s0 (by rw [hs]; exact List.mem_cons_self s0 rest) c hc0)
        · exact List.mem_cons_of_mem x
            (ih seg (by rw [hs]; exact List.mem_cons_of_mem s0 hmem) c hc)

theorem foldl_normStep_keeps_base (segs : List (List Char))
    (h : ∀ seg ∈ segs, seg ≠ ['.', '.']) :
    ∀ base, base <+: segs.foldl normStep base := by
  induction segs with
  | nil => intro base; exact List.prefix_rfl
  | cons s ss ih =>
    intro base
    have hstep : normStep base s = base ∨ normStep base s = base ++ [s] := by
      unfold normStep
      by_cases h0 : s = []
      · simp [h0]
      · by_cases h1 : s = ['.']
        · simp [h0, h1]
        · have h2 : s ≠ ['.', '.'] := h s (List.mem_cons_self s ss)
          simp [h0, h1, h2]
    have hpre : base <+: normStep base s := by
      rcases hstep with h' | h'
      · rw [h']
      · rw [h']; exact List.prefix_append base [s]
    rw [List.foldl_cons]
    exact hpre.trans (ih (fun seg hs => h seg (List.mem_cons_of_mem s hs)) (normStep base s))

theorem data_append (s t : String) : (s ++ t).data = s.data ++ t.data := rfl

theorem packagePath_no_dot (pkg : String) : '.' ∉ (packagePath pkg).data := by
  intro h
  have h2 : '.' ∈ pkg.data.map fun c => if c = '.' then '/' else c := h
  obtain ⟨a, _, hfa⟩ := List.mem_map.mp h2
  by_cases hd : a = '.'
  · rw [if_pos hd] at hfa; cases hfa
  · rw [if_neg hd] at hfa; exact hd hfa

theorem mainActivityRelPath_segs (manifest : String) :
    splitSlash (mainActivityRelPath manifest).data =
      splitSlash "app/src/main/java".data ++
      splitSlash (packagePath (packageName manifest)).data ++
      splitSlash "MainActivity.java".data := by
  have hdecomp : (mainActivityRelPath manifest).data =
      "app/src/main/java".data ++
        '/' :: ((packagePath (packageName manifest)).data ++
          '/' :: "MainActivity.java".data) := by
    rw [mainActivityRelPath, data_append, data_append]
    simp [List.append_assoc]
  rw [hdecomp, splitSlash_append, splitSlash_append, List.append_assoc]

theorem relPath_segs_no_dotdot (manifest : String) :
    ∀ seg ∈ splitSlash (mainActivityRelPath manifest).data, seg ≠ ['.', '.'] := by
  intro seg hseg
  rw [mainActivityRelPath_segs] at hseg
  rcases List.mem_append.mp hseg with h' | hmj
  · rcases List.mem_append.mp h' with happ | hpp
    · intro he; subst he; revert happ; decide
    · intro he; subst he
      exact packagePath_no_dot (packageName manifest)
        (mem_splitSlash_mem _ _ hpp '.' (by decide))
  · intro he; subst he; revert hmj; decide

/-- C10 (amended): for every manifest text and every workspace base path,
the derived write path of the main source file lies under the workspace:
the dot-to-slash replacement removes every dot from the extracted
identifier, so no path segment of the derived relative path can be a
dot-dot segment and posix join/normalization keeps the base as a prefix. -/
theorem c10_amended_source_path_stays_inside (manifest : String)
    (base : List (List Char)) :
    base <+: joinSegs base (mainActivityRelPath manifest).data := by
  rw [joinSegs]
  exact foldl_normStep_keeps_base _ (relPath_segs_no_dotdot manifest) base

/-- C10 counterexample: at the claim's own example input, a manifest
containing package="../../x", the extracted identifier's dots are replaced
by slashes, the derived path normalizes to
app/src/main/java/x/MainActivity.java under the workspace base, and the
base remains a prefix: the path does not escape the workspace. -/
theorem c10_traversal_counterexample :
    packageName exManifestDots = "../../x" ∧
    packagePath (packageName exManifestDots) = "//////x" ∧
    joinSegs exBase (mainActivityRelPath exManifestDots).data =
      exBase ++ ["app".data, "src".data, "main".data, "java".data, "x".data,
                 "MainActivity.java".data] ∧
    exBase <+: joinSegs exBase (mainActivityRelPath exManifestDots).data := by
  have h3 : joinSegs exBase (mainActivityRelPath exManifestDots).data =
      exBase ++ ["app".data, "src".data, "main".data, "java".data, "x".data,
                 "MainActivity.java".data] := by decide
  exact ⟨by decide, by decide, h3, ⟨_, h3.symm⟩⟩

end BkendServe
